import Mathlib

/-!
Shallow embedding of the execution core of the repository
(`src/execution/models.py`, `src/execution/connection.py`,
`src/execution/audit.py`, `src/execution/executor.py`) and proofs of the
specification claims about it.

Conventions of the embedding:
* exact decimal quantities and prices (`decimal.Decimal` in the source) are
  modelled as rationals `ℚ`;
* UTC timestamps (`pd.Timestamp`) are modelled as an abstract clock value
  `Nat`, supplied to any operation that reads the current time;
* Python exceptions are modelled with `Except` / explicit error results;
* the external broker session (the `ib_insync` library, an external
  dependency treated as an opaque boundary by the specification) is modelled
  from the spec as a call-counting stub session whose native order objects
  carry the fields the executor reads and writes.
-/

namespace AlphecExec

/-! ## Domain model (src/execution/models.py) -/

/-- Order type enumeration (`OrderType` in models.py). -/
inductive OrderType
  | MARKET
  | LIMIT
  | STOP
  | STOP_LIMIT
  deriving DecidableEq, Repr

/-- Order side enumeration (`Side` in models.py). -/
inductive Side
  | BUY
  | SELL
  deriving DecidableEq, Repr

/-- The string value of a side (`Side.value` of the Python str-enum). -/
def Side.value : Side → String
  | .BUY => "BUY"
  | .SELL => "SELL"

/-- Time in force enumeration (`TimeInForce` in models.py). -/
inductive TimeInForce
  | DAY
  | GTC
  | IOC
  | FOK
  deriving DecidableEq, Repr

/-- Order status enumeration (`OrderStatus` in models.py). -/
inductive OrderStatus
  | PENDING
  | SUBMITTED
  | PARTIALLY_FILLED
  | FILLED
  | CANCELLED
  | REJECTED
  deriving DecidableEq, Repr

/-- Request to submit an order (`OrderRequest` dataclass in models.py).
The dataclass performs no validation in `__init__`; all fields are plain
data, optional prices default to `None`. -/
structure OrderRequest where
  symbol : String
  quantity : ℚ
  order_type : OrderType
  side : Side
  limit_price : Option ℚ := none
  stop_price : Option ℚ := none
  time_in_force : TimeInForce := .DAY
  account : Option String := none
  client_order_id : Option String := none
  deriving DecidableEq, Repr

/-- Submitted order with broker assignment (`Order` dataclass in models.py). -/
structure Order where
  order_id : String
  client_order_id : Option String
  symbol : String
  quantity : ℚ
  order_type : OrderType
  side : Side
  limit_price : Option ℚ
  stop_price : Option ℚ
  status : OrderStatus
  submitted_at : Nat
  filled_quantity : ℚ := 0
  average_fill_price : Option ℚ := none
  deriving DecidableEq, Repr

/-- Current position snapshot (`Position` dataclass in models.py). -/
structure Position where
  symbol : String
  quantity : ℚ
  average_cost : ℚ
  market_value : ℚ
  unrealized_pnl : ℚ
  timestamp : Nat
  deriving DecidableEq, Repr

/-! ## Broker session boundary (external `ib_insync` library) -/

/-- Modelled from the spec: the broker session handle (`ib_insync.IB`), an
external dependency not part of the repository; the spec (§6) exposes it as
an opaque session with a liveness query, so it is modelled as just the
connected flag read by `IB.isConnected()` and cleared by `IB.disconnect()`. -/
structure IBSession where
  connected : Bool
  deriving DecidableEq, Repr

/-- Modelled from the spec: the runtime class of a broker-native order
object (`MarketOrder` / `LimitOrder` / `StopOrder` subclasses of
`ib_insync.Order`), which the executor recovers by `isinstance` checks;
`genericOrder` stands for any other native order class. -/
inductive IBOrderClass
  | marketOrder
  | limitOrder
  | stopOrder
  | genericOrder
  deriving DecidableEq, Repr

/-- Modelled from the spec: a broker-native order object (`ib_insync.Order`)
restricted to the fields the executor reads and writes; a price field the
constructor does not set is not set, modelled as the zero value (the
executor uniformly treats a price as set exactly when it is `> 0`). -/
structure IBOrder where
  cls : IBOrderClass
  action : String
  totalQuantity : ℚ
  lmtPrice : ℚ := 0
  auxPrice : ℚ := 0
  tif : String := ""
  account : String := ""
  orderId : Nat := 0
  deriving DecidableEq, Repr

/-- Modelled from the spec: the `ib_insync.MarketOrder(action, totalQuantity)`
constructor. -/
def MarketOrder (action : String) (totalQuantity : ℚ) : IBOrder :=
  { cls := .marketOrder, action := action, totalQuantity := totalQuantity }

/-- Modelled from the spec: the
`ib_insync.LimitOrder(action, totalQuantity, lmtPrice)` constructor. -/
def LimitOrder (action : String) (totalQuantity lmtPrice : ℚ) : IBOrder :=
  { cls := .limitOrder, action := action, totalQuantity := totalQuantity,
    lmtPrice := lmtPrice }

/-- Modelled from the spec: the
`ib_insync.StopOrder(action, totalQuantity, stopPrice)` constructor; the
stop trigger is carried in the native auxiliary price field, which is where
the executor reads stop prices back from. -/
def StopOrder (action : String) (totalQuantity stopPrice : ℚ) : IBOrder :=
  { cls := .stopOrder, action := action, totalQuantity := totalQuantity,
    auxPrice := stopPrice }

/-- Contract built by `_place_order_with_ib` (symbol plus fixed routing). -/
structure Contract where
  symbol : String
  secType : String := "STK"
  exchange : String := "SMART"
  currency : String := "USD"
  deriving DecidableEq, Repr

/-- Modelled from the spec: a broker-native trade handle
(`ib_insync.Trade`) restricted to the fields the executor reads:
`trade.order`, `trade.contract.symbol`, `trade.orderStatus.status`,
`trade.orderStatus.filled`, `trade.orderStatus.avgFillPrice`. -/
structure IBTrade where
  order : IBOrder
  contractSymbol : String
  status : String
  filled : ℚ
  avgFillPrice : ℚ
  deriving DecidableEq, Repr

/-- Modelled from the spec: a broker-native position record
(`position.contract.symbol`, `position.position`, `position.avgCost`). -/
structure NativePosition where
  contractSymbol : String
  position : ℚ
  avgCost : ℚ
  deriving DecidableEq, Repr

/-- Modelled from the spec: the call-counting stub broker session of the
spec's testable properties (§8), playing the role of the live `ib_insync`
session: it records every broker-session method invocation and answers
`placeOrder` with a scripted acknowledgment. -/
structure StubBroker where
  placeOrderCalls : Nat := 0
  cancelOrderCalls : Nat := 0
  sleepCalls : Nat := 0
  trades : List IBTrade := []
  nextOrderId : Nat := 1
  ackStatus : String := "Submitted"
  ackFilled : ℚ := 0
  ackAvgFillPrice : ℚ := 0
  deriving DecidableEq, Repr

/-- Modelled from the spec: `ib.placeOrder(contract, order)` on the stub
session — assigns the next broker order id, records the trade, and returns
the trade handle carrying the scripted acknowledgment status. -/
def placeOrder (b : StubBroker) (c : Contract) (o : IBOrder) :
    IBTrade × StubBroker :=
  let o' := { o with orderId := b.nextOrderId }
  let t : IBTrade :=
    { order := o', contractSymbol := c.symbol, status := b.ackStatus,
      filled := b.ackFilled, avgFillPrice := b.ackAvgFillPrice }
  (t, { b with placeOrderCalls := b.placeOrderCalls + 1,
               trades := b.trades ++ [t],
               nextOrderId := b.nextOrderId + 1 })

/-- Modelled from the spec: `ib.sleepAsync(0.5)` on the stub session —
records the brief acknowledgment wait. -/
def sleepAsync (b : StubBroker) : StubBroker :=
  { b with sleepCalls := b.sleepCalls + 1 }

/-! ## Connection manager (src/execution/connection.py) -/

/-- Connection manager state (`IBKRConnectionManager.__init__`):
configuration plus the `_ib` session handle and `_connected` flag. -/
structure IBKRConnectionManager where
  host : String := "127.0.0.1"
  port : Nat := 7497
  client_id : Nat := 1
  readonly : Bool := false
  max_reconnect_attempts : Nat := 5
  reconnect_backoff_seconds : Nat := 5
  ib : Option IBSession := none
  connected : Bool := false
  deriving DecidableEq, Repr

/-- `IBKRConnectionManager.connect()`. The outcome of the network call
`IB.connectAsync` is an input (`outcome`). The method first assigns a fresh
`IB()` to `self._ib`; on success it sets `_connected = True`, on failure it
sets `_connected = False` and raises `ConnectionError` (signalled by the
returned flag being `false`). -/
def connect (m : IBKRConnectionManager) (outcome : Bool) :
    IBKRConnectionManager × Bool :=
  if outcome then
    ({ m with ib := some { connected := true }, connected := true }, true)
  else
    ({ m with ib := some { connected := false }, connected := false }, false)

/-- `IBKRConnectionManager.disconnect()`: closes the session if the handle
exists and reports connected; otherwise a no-op. Total — it raises nothing. -/
def disconnect (m : IBKRConnectionManager) : IBKRConnectionManager :=
  match m.ib with
  | some s =>
    if s.connected then
      { m with ib := some { connected := false }, connected := false }
    else m
  | none => m

/-- `IBKRConnectionManager.is_connected()`: false if `_ib` is `None`, else
the transport's own liveness report. -/
def is_connected (m : IBKRConnectionManager) : Bool :=
  match m.ib with
  | none => false
  | some s => s.connected

/-- `IBKRConnectionManager.ensure_connected()`: single connect attempt if
and only if not currently connected. -/
def ensure_connected (m : IBKRConnectionManager) (outcome : Bool) :
    IBKRConnectionManager × Bool :=
  if is_connected m then (m, true) else connect m outcome

/-- Trace of one `connect_with_retry()` call: final manager state, result
(`Except n ()` where the error carries the attempt count named in the
raised `ConnectionError` message), number of `connect()` calls, number of
successful connects, and the list of sleep durations in order. -/
structure RetryTrace where
  manager : IBKRConnectionManager
  result : Except Nat Unit
  connectCalls : Nat
  successfulConnects : Nat
  sleeps : List Nat
  deriving Repr

/-- Loop body of `connect_with_retry()`: `fuel` is the number of loop
iterations left (`max_reconnect_attempts - attempt`), `i` indexes the
injected connect outcomes, `backoff` is the current backoff. On failure the
attempt counter advances; at exhaustion a `ConnectionError` summarizing
`max_reconnect_attempts` attempts is raised, otherwise the loop sleeps for
`backoff` and doubles it. -/
def connectWithRetryAux (outcomes : Nat → Bool) :
    Nat → IBKRConnectionManager → Nat → Nat → RetryTrace
  | 0, m, _, _ =>
    { manager := m, result := .ok (), connectCalls := 0,
      successfulConnects := 0, sleeps := [] }
  | Nat.succ f, m, i, backoff =>
    let (m', ok) := connect m (outcomes i)
    if ok then
      { manager := m', result := .ok (), connectCalls := 1,
        successfulConnects := 1, sleeps := [] }
    else if f = 0 then
      { manager := m', result := .error m'.max_reconnect_attempts,
        connectCalls := 1, successfulConnects := 0, sleeps := [] }
    else
      let t := connectWithRetryAux outcomes f m' (i + 1) (backoff * 2)
      { manager := t.manager, result := t.result,
        connectCalls := t.connectCalls + 1,
        successfulConnects := t.successfulConnects,
        sleeps := backoff :: t.sleeps }

/-- `IBKRConnectionManager.connect_with_retry()`: bounded exponential
backoff starting from `reconnect_backoff_seconds`, at most
`max_reconnect_attempts` connect attempts; `outcomes i` is the injected
result of the `i`-th connect attempt. -/
def connect_with_retry (m : IBKRConnectionManager) (outcomes : Nat → Bool) :
    RetryTrace :=
  connectWithRetryAux outcomes m.max_reconnect_attempts m 0
    m.reconnect_backoff_seconds

/-! ## Status mapping (executor.py `_map_ib_status`) -/

/-- `IBKROrderExecutor._map_ib_status`: dictionary lookup with default
`OrderStatus.PENDING`. -/
def map_ib_status (ib_status : String) : OrderStatus :=
  if ib_status = "PendingSubmit" then .PENDING
  else if ib_status = "Submitted" then .SUBMITTED
  else if ib_status = "PreSubmitted" then .SUBMITTED
  else if ib_status = "PartiallyFilled" then .PARTIALLY_FILLED
  else if ib_status = "Filled" then .FILLED
  else if ib_status = "Cancelled" then .CANCELLED
  else if ib_status = "Rejected" then .REJECTED
  else if ib_status = "Inactive" then .REJECTED
  else .PENDING

/-! ## Audit logger (src/execution/audit.py) -/

/-- One structured audit record, with the fields the corresponding
`AuditLogger` method puts into its `log_data` dictionary (the `event` tag
is the constructor). -/
inductive AuditEvent
  | ORDER_SUBMITTED (order_id : String) (client_order_id : Option String)
      (symbol : String) (quantity : ℚ) (order_type : OrderType) (side : Side)
      (limit_price stop_price : Option ℚ) (time_in_force : TimeInForce)
      (submitted_at : Nat)
  | RISK_CHECK_FAILED (client_order_id : Option String) (symbol : String)
      (quantity : ℚ) (order_type : OrderType) (side : Side) (reason : String)
  | ORDER_CANCELLED (order_id : String) (reason : String)
  deriving DecidableEq, Repr

/-- Behaviour of the audit logger instance injected into the executor
(`audit_logger` constructor argument). The repository's own `AuditLogger`
methods only format and log, raising nothing; `failSubmitted = true` models
an injected logger whose `log_order_submitted` raises. -/
structure AuditLoggerModel where
  failSubmitted : Bool := false
  deriving DecidableEq, Repr

/-! ## Order executor (src/execution/executor.py) -/

/-- The executor's exception taxonomy: `RiskCheckError`,
`ConnectionError` (from connection.py), `OrderRejectedError`, and Python's
builtin `ValueError`, each carrying its message. -/
inductive ExecError
  | RiskCheckError (msg : String)
  | ConnectionErr (msg : String)
  | OrderRejectedError (msg : String)
  | ValueErr (msg : String)
  deriving DecidableEq, Repr

/-- The `tif` string written by `_create_ib_order`'s time-in-force chain. -/
def tifString : TimeInForce → String
  | .DAY => "DAY"
  | .GTC => "GTC"
  | .IOC => "IOC"
  | .FOK => "FOK"

/-- `IBKROrderExecutor._create_ib_order`: builds the broker-native order
for an `OrderRequest`; a missing required price raises `ValueError`
(modelled as `Except.error` with the exact message). -/
def create_ib_order (r : OrderRequest) : Except String IBOrder :=
  let base : Except String IBOrder :=
    match r.order_type with
    | .MARKET => .ok (MarketOrder r.side.value r.quantity)
    | .LIMIT =>
      match r.limit_price with
      | none => .error "Limit price required for LIMIT order"
      | some lp => .ok (LimitOrder r.side.value r.quantity lp)
    | .STOP =>
      match r.stop_price with
      | none => .error "Stop price required for STOP order"
      | some sp => .ok (StopOrder r.side.value r.quantity sp)
    | .STOP_LIMIT =>
      match r.stop_price, r.limit_price with
      | some sp, some lp =>
        .ok { LimitOrder r.side.value r.quantity lp with auxPrice := sp }
      | _, _ => .error "Stop and limit prices required for STOP_LIMIT order"
  match base with
  | .error e => .error e
  | .ok o =>
    let o1 := { o with tif := tifString r.time_in_force }
    let o2 :=
      match r.account with
      | some a => { o1 with account := a }
      | none => o1
    .ok o2

/-- `IBKROrderExecutor._determine_order_type`: recovers the domain order
kind from a broker-native order by its runtime class; for a limit order the
auxiliary price decides between STOP_LIMIT and LIMIT; unknown classes
default to MARKET. -/
def determine_order_type (o : IBOrder) : OrderType :=
  match o.cls with
  | .marketOrder => .MARKET
  | .limitOrder => if 0 < o.auxPrice then .STOP_LIMIT else .LIMIT
  | .stopOrder => .STOP
  | .genericOrder => .MARKET

/-- `IBKROrderExecutor._convert_to_order`: builds the domain `Order` from a
trade handle and the original request; `now` is the submission-time clock
reading (`pd.Timestamp.now`). -/
def convert_to_order (t : IBTrade) (r : OrderRequest) (now : Nat) : Order :=
  { order_id := toString t.order.orderId,
    client_order_id := r.client_order_id,
    symbol := r.symbol,
    quantity := r.quantity,
    order_type := r.order_type,
    side := r.side,
    limit_price := r.limit_price,
    stop_price := r.stop_price,
    status := map_ib_status t.status,
    submitted_at := now,
    filled_quantity := t.filled,
    average_fill_price :=
      if 0 < t.avgFillPrice then some t.avgFillPrice else none }

/-- `IBKROrderExecutor._convert_trade_to_order`: reconstructs an `Order`
from a broker-native trade alone (status queries); the client correlation
id is not stored in the native order and the broker does not provide the
submission time, so `submitted_at` is the query-time clock reading `now`. -/
def convert_trade_to_order (t : IBTrade) (now : Nat) : Order :=
  { order_id := toString t.order.orderId,
    client_order_id := none,
    symbol := t.contractSymbol,
    quantity := t.order.totalQuantity,
    order_type := determine_order_type t.order,
    side := if t.order.action = "BUY" then .BUY else .SELL,
    limit_price := if 0 < t.order.lmtPrice then some t.order.lmtPrice else none,
    stop_price := if 0 < t.order.auxPrice then some t.order.auxPrice else none,
    status := map_ib_status t.status,
    submitted_at := now,
    filled_quantity := t.filled,
    average_fill_price :=
      if 0 < t.avgFillPrice then some t.avgFillPrice else none }

/-- Trace of one `submit_order` call: its result or raised error, the
final connection-manager and stub-broker states, the audit events recorded
during the call, and how many times `ensure_connected` was invoked. -/
structure SubmitTrace where
  result : Except ExecError Order
  manager : IBKRConnectionManager
  broker : StubBroker
  audit : List AuditEvent
  ensureConnectedCalls : Nat
  deriving Repr

/-- `IBKROrderExecutor.submit_order` over the stub broker session:
1. run the risk gate if configured — on `false`, log `RISK_CHECK_FAILED`
   and raise `RiskCheckError` before any broker interaction;
2. `ensure_connected` (its network outcome, used only when disconnected,
   is the input `connectOutcome`);
3. inside the try block: `_place_order_with_ib` (build contract, build the
   native order — a `ValueError` here is caught below —, `placeOrder`,
   `sleepAsync`, convert) then `log_order_submitted`; any exception raised
   in the try block is wrapped as `OrderRejectedError` with the cause in
   its message. -/
def submit_order (riskCheck : Option (OrderRequest → Bool))
    (auditL : AuditLoggerModel) (m : IBKRConnectionManager) (b : StubBroker)
    (connectOutcome : Bool) (now : Nat) (r : OrderRequest) : SubmitTrace :=
  let riskRejected :=
    match riskCheck with
    | some f => !f r
    | none => false
  if riskRejected then
    let msg := "Risk check rejected order for " ++ r.symbol
    { result := .error (.RiskCheckError msg), manager := m, broker := b,
      audit := [.RISK_CHECK_FAILED r.client_order_id r.symbol r.quantity
        r.order_type r.side msg],
      ensureConnectedCalls := 0 }
  else
    let (m', connOk) := ensure_connected m connectOutcome
    if !connOk then
      { result := .error (.ConnectionErr
          ("Failed to connect to TWS at " ++ m.host)),
        manager := m', broker := b, audit := [], ensureConnectedCalls := 1 }
    else
      match create_ib_order r with
      | .error msg =>
        { result := .error (.OrderRejectedError
            ("Order rejected by broker: " ++ msg)),
          manager := m', broker := b, audit := [], ensureConnectedCalls := 1 }
      | .ok ibo =>
        let (trade, b1) := placeOrder b { symbol := r.symbol } ibo
        let b2 := sleepAsync b1
        let order := convert_to_order trade r now
        if auditL.failSubmitted then
          { result := .error (.OrderRejectedError
              "Order rejected by broker: audit logging failure"),
            manager := m', broker := b2, audit := [],
            ensureConnectedCalls := 1 }
        else
          { result := .ok order, manager := m', broker := b2,
            audit := [.ORDER_SUBMITTED order.order_id r.client_order_id
              r.symbol r.quantity r.order_type r.side r.limit_price
              r.stop_price r.time_in_force now],
            ensureConnectedCalls := 1 }

/-- `IBKROrderExecutor._cancel_order_with_ib`: scans the session's tracked
trades for the order id and cancels the first match; raises `ValueError`
with the not-found message when no trade matches. -/
def cancel_order_with_ib (b : StubBroker) (order_id : String) :
    Except String StubBroker :=
  match b.trades.find? (fun t => toString t.order.orderId == order_id) with
  | some _ => .ok { b with cancelOrderCalls := b.cancelOrderCalls + 1 }
  | none => .error ("Order " ++ order_id ++ " not found")

/-- Trace of one `cancel_order` call. -/
structure CancelTrace where
  result : Except ExecError Unit
  manager : IBKRConnectionManager
  broker : StubBroker
  audit : List AuditEvent
  deriving Repr

/-- `IBKROrderExecutor.cancel_order`: `ensure_connected`, then
`_cancel_order_with_ib` — whose `ValueError` propagates unwrapped, there is
no try block here — then the `ORDER_CANCELLED` audit event. -/
def cancel_order (m : IBKRConnectionManager) (b : StubBroker)
    (connectOutcome : Bool) (order_id : String) : CancelTrace :=
  let (m', connOk) := ensure_connected m connectOutcome
  if !connOk then
    { result := .error (.ConnectionErr
        ("Failed to connect to TWS at " ++ m.host)),
      manager := m', broker := b, audit := [] }
  else
    match cancel_order_with_ib b order_id with
    | .error msg =>
      { result := .error (.ValueErr msg), manager := m', broker := b,
        audit := [] }
    | .ok b' =>
      { result := .ok (), manager := m', broker := b',
        audit := [.ORDER_CANCELLED order_id "User requested cancellation"] }

/-- `IBKROrderExecutor._get_order_from_ib`: finds the trade with the given
order id and reconstructs the `Order` at query time `now`; raises
`ValueError` when no trade matches. -/
def get_order_from_ib (b : StubBroker) (order_id : String) (now : Nat) :
    Except String Order :=
  match b.trades.find? (fun t => toString t.order.orderId == order_id) with
  | some t => .ok (convert_trade_to_order t now)
  | none => .error ("Order " ++ order_id ++ " not found")

/-- `IBKROrderExecutor._get_open_orders_from_ib`: reconstructs an `Order`
from every open trade of the session at query time `now` (on the stub
session the tracked trades play the role of `ib.openTrades()`). -/
def get_open_orders_from_ib (b : StubBroker) (now : Nat) : List Order :=
  b.trades.map (fun t => convert_trade_to_order t now)

/-- `IBKROrderExecutor._get_positions_from_ib`: one `Position` snapshot per
native position; market value is quantity times average cost and the
unrealized P&L is the constant zero (the source notes it would need market
data), with the snapshot timestamped at query time `now`. -/
def get_positions_from_ib (ps : List NativePosition) (now : Nat) :
    List Position :=
  ps.map (fun p =>
    { symbol := p.contractSymbol,
      quantity := p.position,
      average_cost := p.avgCost,
      market_value := p.position * p.avgCost,
      unrealized_pnl := 0,
      timestamp := now })

/-! ## Auxiliary predicates and sample values -/

/-- Boolean form of "every price the request carries is positive" (the
required-price positivity hypothesis of the order-kind round-trip). -/
def pricesPositive (r : OrderRequest) : Bool :=
  (match r.limit_price with
   | none => true
   | some p => decide (0 < p)) &&
  (match r.stop_price with
   | none => true
   | some p => decide (0 < p))

/-- A LIMIT order request that carries no limit price. -/
def limitNoPriceReq : OrderRequest :=
  { symbol := "AAPL", quantity := 100, order_type := .LIMIT, side := .BUY }

/-- A plain MARKET BUY request. -/
def marketReq : OrderRequest :=
  { symbol := "AAPL", quantity := 100, order_type := .MARKET, side := .BUY }

/-- A STOP_LIMIT request with both prices present and positive. -/
def stopLimitReq : OrderRequest :=
  { symbol := "AAPL", quantity := 10, order_type := .STOP_LIMIT, side := .BUY,
    limit_price := some 100, stop_price := some 90 }

/-- The broker-native order `create_ib_order` builds for `stopLimitReq`. -/
def stopLimitBuilt : IBOrder :=
  { cls := .limitOrder, action := "BUY", totalQuantity := 10,
    lmtPrice := 100, auxPrice := 90, tif := "DAY", account := "" }

/-- A connection manager whose session is up. -/
def connectedMgr : IBKRConnectionManager :=
  { ib := some { connected := true }, connected := true }

/-- A broker-native trade tracked by the stub session. -/
def sampleTrade : IBTrade :=
  { order := { cls := .marketOrder, action := "BUY", totalQuantity := 100,
               orderId := 1 },
    contractSymbol := "AAPL", status := "Filled", filled := 100,
    avgFillPrice := 150 }

/-- A manager configured for the spec's reconnection scenario:
three attempts, base backoff five seconds. -/
def retryMgr : IBKRConnectionManager :=
  { max_reconnect_attempts := 3, reconnect_backoff_seconds := 5 }

/-- Injected connect outcomes: two failures followed by successes. -/
def retryOutcomes : Nat → Bool := fun i => decide (2 ≤ i)

/-! ## Claim theorems -/

/-- C2: the status-mapping function is total over all broker-native status
strings and returns exactly one domain status per input, following the
spec's table — pending-submit ↦ PENDING; submitted and pre-submitted ↦
SUBMITTED; partially-filled ↦ PARTIALLY_FILLED; filled ↦ FILLED;
cancelled ↦ CANCELLED; rejected and inactive ↦ REJECTED; every other input
yields PENDING (the function is total, so it never raises). -/
theorem map_ib_status_total_per_table :
    map_ib_status "PendingSubmit" = OrderStatus.PENDING ∧
    map_ib_status "Submitted" = OrderStatus.SUBMITTED ∧
    map_ib_status "PreSubmitted" = OrderStatus.SUBMITTED ∧
    map_ib_status "PartiallyFilled" = OrderStatus.PARTIALLY_FILLED ∧
    map_ib_status "Filled" = OrderStatus.FILLED ∧
    map_ib_status "Cancelled" = OrderStatus.CANCELLED ∧
    map_ib_status "Rejected" = OrderStatus.REJECTED ∧
    map_ib_status "Inactive" = OrderStatus.REJECTED ∧
    ∀ s : String,
      s ∉ (["PendingSubmit", "Submitted", "PreSubmitted", "PartiallyFilled",
            "Filled", "Cancelled", "Rejected", "Inactive"] : List String) →
      map_ib_status s = OrderStatus.PENDING := by
  refine ⟨rfl, rfl, rfl, rfl, rfl, rfl, rfl, rfl, ?_⟩
  intro s hs
  simp only [List.mem_cons, List.not_mem_nil, or_false, not_or] at hs
  obtain ⟨h1, h2, h3, h4, h5, h6, h7, h8⟩ := hs
  simp [map_ib_status, h1, h2, h3, h4, h5, h6, h7, h8]

/-- C2 witness: an unknown broker status maps to PENDING. -/
theorem map_ib_status_total_per_table_witness :
    map_ib_status "ApiPending" = OrderStatus.PENDING :=
  map_ib_status_total_per_table.2.2.2.2.2.2.2.2 "ApiPending" (by decide)

/-- C8: `disconnect` is idempotent — for every connection-manager state,
calling it twice raises no error (it is a total function), the second call
is a no-op, and `is_connected` reports false after each of the two calls. -/
theorem disconnect_idempotent (m : IBKRConnectionManager) :
    disconnect (disconnect m) = disconnect m ∧
    is_connected (disconnect m) = false ∧
    is_connected (disconnect (disconnect m)) = false := by
  obtain ⟨host, port, cid, ro, maxr, rb, ib, conn⟩ := m
  cases ib with
  | none => simp [disconnect, is_connected]
  | some s =>
    obtain ⟨c⟩ := s
    cases c <;> simp [disconnect, is_connected]

/-- C8 witness: the property evaluated at a connected manager. -/
theorem disconnect_idempotent_witness :
    disconnect (disconnect connectedMgr) = disconnect connectedMgr ∧
    is_connected (disconnect connectedMgr) = false ∧
    is_connected (disconnect (disconnect connectedMgr)) = false :=
  disconnect_idempotent connectedMgr

/-- C9: every `Position` snapshot returned by the positions query has
`unrealized_pnl` exactly zero and `market_value` equal to quantity times
average cost, for every list of native positions the broker reports (the
conversion reads only the native symbol, quantity and average cost). -/
theorem get_positions_zero_pnl (ps : List NativePosition) (now : Nat)
    (q : Position) (hq : q ∈ get_positions_from_ib ps now) :
    q.unrealized_pnl = 0 ∧ q.market_value = q.quantity * q.average_cost := by
  simp only [get_positions_from_ib, List.mem_map] at hq
  obtain ⟨p, -, rfl⟩ := hq
  exact ⟨rfl, rfl⟩

/-- C9 witness: the property evaluated on a one-position report. -/
theorem get_positions_zero_pnl_witness :
    ({ symbol := "AAPL", quantity := 100, average_cost := 150,
       market_value := 100 * 150, unrealized_pnl := 0,
       timestamp := 7 } : Position)
      ∈ get_positions_from_ib
          [{ contractSymbol := "AAPL", position := 100, avgCost := 150 }] 7 ∧
    (({ symbol := "AAPL", quantity := 100, average_cost := 150,
        market_value := 100 * 150, unrealized_pnl := 0,
        timestamp := 7 } : Position).unrealized_pnl = 0 ∧
     ({ symbol := "AAPL", quantity := 100, average_cost := 150,
        market_value := 100 * 150, unrealized_pnl := 0,
        timestamp := 7 } : Position).market_value =
       ({ symbol := "AAPL", quantity := 100, average_cost := 150,
          market_value := 100 * 150, unrealized_pnl := 0,
          timestamp := 7 } : Position).quantity *
       ({ symbol := "AAPL", quantity := 100, average_cost := 150,
          market_value := 100 * 150, unrealized_pnl := 0,
          timestamp := 7 } : Position).average_cost) :=
  ⟨List.mem_singleton.mpr rfl,
   get_positions_zero_pnl
     [{ contractSymbol := "AAPL", position := 100, avgCost := 150 }] 7 _
     (List.mem_singleton.mpr rfl)⟩

/-- C10: every `Order` reconstructed from a broker-native trade by the
status-query operations has `client_order_id = none` and `submitted_at`
equal to the query-time clock reading, whatever the trade holds — the
client correlation id and the true submission time are not recoverable. -/
theorem query_reconstruction_loses_client_id :
    (∀ (t : IBTrade) (now : Nat),
      (convert_trade_to_order t now).client_order_id = none ∧
      (convert_trade_to_order t now).submitted_at = now) ∧
    (∀ (b : StubBroker) (oid : String) (now : Nat) (o : Order),
      get_order_from_ib b oid now = .ok o →
      o.client_order_id = none ∧ o.submitted_at = now) ∧
    (∀ (b : StubBroker) (now : Nat) (o : Order),
      o ∈ get_open_orders_from_ib b now →
      o.client_order_id = none ∧ o.submitted_at = now) := by
  refine ⟨fun t now => ⟨rfl, rfl⟩, ?_, ?_⟩
  · intro b oid now o h
    unfold get_order_from_ib at h
    cases hf : b.trades.find? (fun t => toString t.order.orderId == oid) with
    | none => rw [hf] at h; exact absurd h (by simp)
    | some t =>
      rw [hf] at h
      cases h
      exact ⟨rfl, rfl⟩
  · intro b now o h
    simp only [get_open_orders_from_ib, List.mem_map] at h
    obtain ⟨t, -, rfl⟩ := h
    exact ⟨rfl, rfl⟩

/-- C10 witness: the status query on a tracked trade yields an order with
no client correlation id, stamped with the query time. -/
theorem query_reconstruction_loses_client_id_witness :
    get_order_from_ib { trades := [sampleTrade] } "1" 5 =
      .ok (convert_trade_to_order sampleTrade 5) ∧
    ((convert_trade_to_order sampleTrade 5).client_order_id = none ∧
     (convert_trade_to_order sampleTrade 5).submitted_at = 5) :=
  ⟨rfl, query_reconstruction_loses_client_id.2.1 { trades := [sampleTrade] }
    "1" 5 _ rfl⟩

/-- C3: for every `OrderRequest` of kind LIMIT or STOP_LIMIT without a
limit price, and likewise STOP or STOP_LIMIT without a stop price, the
native-order builder rejects the request deterministically with a
`ValueError`-class contract violation (the `OrderRequest` dataclass itself
performs no construction-time validation, so the violation surfaces at
latest here, during submission) — a price is never silently defaulted. -/
theorem create_ib_order_missing_price_rejected (r : OrderRequest)
    (h : ((r.order_type = .LIMIT ∨ r.order_type = .STOP_LIMIT) ∧
            r.limit_price = none) ∨
         ((r.order_type = .STOP ∨ r.order_type = .STOP_LIMIT) ∧
            r.stop_price = none)) :
    ∃ msg, create_ib_order r = .error msg := by
  rcases h with ⟨hk | hk, hp⟩ | ⟨hk | hk, hp⟩
  · exact ⟨"Limit price required for LIMIT order",
      by simp [create_ib_order, hk, hp]⟩
  · refine ⟨"Stop and limit prices required for STOP_LIMIT order", ?_⟩
    cases hsp : r.stop_price <;> simp [create_ib_order, hk, hp, hsp]
  · exact ⟨"Stop price required for STOP order",
      by simp [create_ib_order, hk, hp]⟩
  · refine ⟨"Stop and limit prices required for STOP_LIMIT order", ?_⟩
    cases hlp : r.limit_price <;> simp [create_ib_order, hk, hp, hlp]

/-- C3 witness: a LIMIT request with no limit price is rejected. -/
theorem create_ib_order_missing_price_rejected_witness :
    (((limitNoPriceReq.order_type = OrderType.LIMIT ∨
        limitNoPriceReq.order_type = OrderType.STOP_LIMIT) ∧
       limitNoPriceReq.limit_price = none) ∨
     ((limitNoPriceReq.order_type = OrderType.STOP ∨
        limitNoPriceReq.order_type = OrderType.STOP_LIMIT) ∧
       limitNoPriceReq.stop_price = none)) ∧
    ∃ msg, create_ib_order limitNoPriceReq = Except.error msg :=
  ⟨Or.inl ⟨Or.inl rfl, rfl⟩,
   create_ib_order_missing_price_rejected limitNoPriceReq
     (Or.inl ⟨Or.inl rfl, rfl⟩)⟩

/-- C6: for every order id matching no tracked broker trade, `cancel_order`
(with the connection up) raises the `ValueError`-class not-found error —
propagated to the caller unwrapped, not as `OrderRejectedError` — and the
cancellation is not silently accepted: no broker-side cancel happens and no
`ORDER_CANCELLED` audit event is recorded. -/
theorem cancel_order_unknown_id_value_error (m : IBKRConnectionManager)
    (b : StubBroker) (out : Bool) (oid : String)
    (hconn : is_connected m = true)
    (hnone : b.trades.find?
      (fun t => toString t.order.orderId == oid) = none) :
    (cancel_order m b out oid).result =
      .error (.ValueErr ("Order " ++ oid ++ " not found")) ∧
    (cancel_order m b out oid).audit = [] ∧
    (cancel_order m b out oid).broker = b := by
  simp [cancel_order, ensure_connected, hconn, cancel_order_with_ib, hnone]

/-- C6 witness: cancelling an unknown id on an empty session. -/
theorem cancel_order_unknown_id_value_error_witness :
    is_connected connectedMgr = true ∧
    (cancel_order connectedMgr {} true "99").result =
      .error (.ValueErr ("Order " ++ "99" ++ " not found")) ∧
    (cancel_order connectedMgr {} true "99").audit = [] ∧
    (cancel_order connectedMgr {} true "99").broker = {} :=
  ⟨rfl, cancel_order_unknown_id_value_error connectedMgr {} true "99" rfl rfl⟩

/-- C1: for every order request and every configured risk-check callback,
if the callback returns false then `submit_order` raises `RiskCheckError`,
records exactly the `RISK_CHECK_FAILED` audit event, and performs no broker
interaction at all: `ensure_connected` is not called, the connection
manager and the stub broker session are left untouched (so no
broker-session method is invoked and no broker-side side effect occurs). -/
theorem submit_order_risk_gate_blocks (f : OrderRequest → Bool)
    (auditL : AuditLoggerModel) (m : IBKRConnectionManager) (b : StubBroker)
    (out : Bool) (now : Nat) (r : OrderRequest) (h : f r = false) :
    (submit_order (some f) auditL m b out now r).result =
      .error (.RiskCheckError ("Risk check rejected order for " ++ r.symbol)) ∧
    (submit_order (some f) auditL m b out now r).audit =
      [.RISK_CHECK_FAILED r.client_order_id r.symbol r.quantity r.order_type
        r.side ("Risk check rejected order for " ++ r.symbol)] ∧
    (submit_order (some f) auditL m b out now r).ensureConnectedCalls = 0 ∧
    (submit_order (some f) auditL m b out now r).broker = b ∧
    (submit_order (some f) auditL m b out now r).manager = m := by
  simp [submit_order, h]

/-- C1 witness: a rejecting gate on a MARKET request blocks submission. -/
theorem submit_order_risk_gate_blocks_witness :
    (fun _ : OrderRequest => false) marketReq = false ∧
    ((submit_order (some fun _ => false) {} connectedMgr {} true 0
        marketReq).result =
      .error (.RiskCheckError
        ("Risk check rejected order for " ++ marketReq.symbol)) ∧
     (submit_order (some fun _ => false) {} connectedMgr {} true 0
        marketReq).ensureConnectedCalls = 0 ∧
     (submit_order (some fun _ => false) {} connectedMgr {} true 0
        marketReq).broker = {}) :=
  ⟨rfl,
   (submit_order_risk_gate_blocks (fun _ => false) {} connectedMgr {} true 0
      marketReq rfl).1,
   (submit_order_risk_gate_blocks (fun _ => false) {} connectedMgr {} true 0
      marketReq rfl).2.2.1,
   (submit_order_risk_gate_blocks (fun _ => false) {} connectedMgr {} true 0
      marketReq rfl).2.2.2.1⟩

/-- C4: the code contradicts the claim — with the broker placement
succeeding (the stub records exactly one `placeOrder` call and tracks the
trade) and an injected audit logger whose `log_order_submitted` raises,
`submit_order` does not return the order: the logging fault is caught by
the blanket `except` of the try block and re-raised as
`OrderRejectedError`, aborting the operation and masking its successful
outcome. -/
theorem submit_order_audit_fault_wrapped :
    (submit_order none { failSubmitted := true } connectedMgr {} true 0
        marketReq).result =
      .error (.OrderRejectedError
        "Order rejected by broker: audit logging failure") ∧
    (submit_order none { failSubmitted := true } connectedMgr {} true 0
        marketReq).broker.placeOrderCalls = 1 ∧
    (submit_order none { failSubmitted := true } connectedMgr {} true 0
        marketReq).broker.trades.length = 1 := by
  refine ⟨rfl, rfl, rfl⟩

/-- C7: the order-kind inference returns MARKET for a plain market order,
STOP_LIMIT for a limit order whose auxiliary trigger price is greater than
zero and LIMIT otherwise, and STOP for a stop order; consequently, for
every request with all required prices positive, the kind inferred from the
native order the executor builds for it equals the request's order kind. -/
theorem determine_order_type_spec (o : IBOrder) (r : OrderRequest)
    (o' : IBOrder) (hpos : pricesPositive r = true)
    (hbuild : create_ib_order r = .ok o') :
    (o.cls = .marketOrder → determine_order_type o = .MARKET) ∧
    (o.cls = .limitOrder → 0 < o.auxPrice →
      determine_order_type o = .STOP_LIMIT) ∧
    (o.cls = .limitOrder → ¬0 < o.auxPrice →
      determine_order_type o = .LIMIT) ∧
    (o.cls = .stopOrder → determine_order_type o = .STOP) ∧
    determine_order_type o' = r.order_type := by
  refine ⟨?_, ?_, ?_, ?_, ?_⟩
  · intro hc; simp [determine_order_type, hc]
  · intro hc haux; simp [determine_order_type, hc, haux]
  · intro hc haux; simp [determine_order_type, hc, haux]
  · intro hc; simp [determine_order_type, hc]
  · cases hk : r.order_type with
    | MARKET =>
      cases hacc : r.account with
      | none =>
        simp only [create_ib_order, hk, hacc, MarketOrder,
          Except.ok.injEq] at hbuild
        subst hbuild
        rfl
      | some a =>
        simp only [create_ib_order, hk, hacc, MarketOrder,
          Except.ok.injEq] at hbuild
        subst hbuild
        rfl
    | LIMIT =>
      cases hlp : r.limit_price with
      | none => simp [create_ib_order, hk, hlp] at hbuild
      | some lp =>
        cases hacc : r.account with
        | none =>
          simp only [create_ib_order, hk, hlp, hacc, LimitOrder,
            Except.ok.injEq] at hbuild
          subst hbuild
          simp [determine_order_type]
        | some a =>
          simp only [create_ib_order, hk, hlp, hacc, LimitOrder,
            Except.ok.injEq] at hbuild
          subst hbuild
          simp [determine_order_type]
    | STOP =>
      cases hsp : r.stop_price with
      | none => simp [create_ib_order, hk, hsp] at hbuild
      | some sp =>
        cases hacc : r.account with
        | none =>
          simp only [create_ib_order, hk, hsp, hacc, StopOrder,
            Except.ok.injEq] at hbuild
          subst hbuild
          rfl
        | some a =>
          simp only [create_ib_order, hk, hsp, hacc, StopOrder,
            Except.ok.injEq] at hbuild
          subst hbuild
          rfl
    | STOP_LIMIT =>
      cases hsp : r.stop_price with
      | none => simp [create_ib_order, hk, hsp] at hbuild
      | some sp =>
        cases hlp : r.limit_price with
        | none => simp [create_ib_order, hk, hsp, hlp] at hbuild
        | some lp =>
          have hsp' : 0 < sp := by
            simp [pricesPositive, hlp, hsp] at hpos
            exact hpos.2
          cases hacc : r.account with
          | none =>
            simp only [create_ib_order, hk, hsp, hlp, hacc, LimitOrder,
              Except.ok.injEq] at hbuild
            subst hbuild
            simp [determine_order_type, hsp']
          | some a =>
            simp only [create_ib_order, hk, hsp, hlp, hacc, LimitOrder,
              Except.ok.injEq] at hbuild
            subst hbuild
            simp [determine_order_type, hsp']

/-- C7 witness: round trip on a concrete STOP_LIMIT request. -/
theorem determine_order_type_spec_witness :
    pricesPositive stopLimitReq = true ∧
    create_ib_order stopLimitReq = .ok stopLimitBuilt ∧
    determine_order_type stopLimitBuilt = stopLimitReq.order_type :=
  ⟨by decide, rfl,
   (determine_order_type_spec stopLimitBuilt stopLimitReq stopLimitBuilt
      (by decide) rfl).2.2.2.2⟩

/-- A failed or successful connect leaves the configured attempt limit
unchanged. -/
theorem connect_preserves_max (m : IBKRConnectionManager) (o : Bool) :
    ((connect m o).1).max_reconnect_attempts = m.max_reconnect_attempts := by
  cases o <;> rfl

/-- The retry loop performs at most `fuel` connect attempts. -/
theorem connectWithRetryAux_calls_le (outcomes : Nat → Bool) :
    ∀ (fuel : Nat) (m : IBKRConnectionManager) (i backoff : Nat),
      (connectWithRetryAux outcomes fuel m i backoff).connectCalls ≤ fuel := by
  intro fuel
  induction fuel with
  | zero => intro m i backoff; exact Nat.le_refl 0
  | succ f ih =>
    intro m i backoff
    cases houtcome : outcomes i with
    | true =>
      simp only [connectWithRetryAux, houtcome, connect]
      simp
    | false =>
      cases f with
      | zero =>
        simp only [connectWithRetryAux, houtcome, connect]
        simp
      | succ f' =>
        simp only [connectWithRetryAux, houtcome, connect]
        simp only [Nat.succ_ne_zero, if_false]
        exact Nat.succ_le_succ (ih _ _ _)

/-- One-step unfolding of the retry loop at positive fuel. -/
theorem connectWithRetryAux_succ_eq (outcomes : Nat → Bool) (f : Nat)
    (m : IBKRConnectionManager) (i backoff : Nat) :
    connectWithRetryAux outcomes (f + 1) m i backoff =
      (let p := connect m (outcomes i)
       if p.2 then
         { manager := p.1, result := .ok (), connectCalls := 1,
           successfulConnects := 1, sleeps := [] }
       else if f = 0 then
         { manager := p.1, result := .error p.1.max_reconnect_attempts,
           connectCalls := 1, successfulConnects := 0, sleeps := [] }
       else
         let t := connectWithRetryAux outcomes f p.1 (i + 1) (backoff * 2)
         { manager := t.manager, result := t.result,
           connectCalls := t.connectCalls + 1,
           successfulConnects := t.successfulConnects,
           sleeps := backoff :: t.sleeps }) := rfl

/-- The sleep durations of the retry loop form the geometric schedule
`backoff, backoff·2, backoff·4, …`. -/
theorem connectWithRetryAux_sleeps_geometric (outcomes : Nat → Bool) :
    ∀ (fuel : Nat) (m : IBKRConnectionManager) (i backoff : Nat),
      ∃ n, (connectWithRetryAux outcomes fuel m i backoff).sleeps =
        (List.range n).map (fun k => backoff * 2 ^ k) := by
  intro fuel
  induction fuel with
  | zero => intro m i backoff; exact ⟨0, rfl⟩
  | succ f ih =>
    intro m i backoff
    rw [connectWithRetryAux_succ_eq]
    cases houtcome : outcomes i with
    | true =>
      refine ⟨0, ?_⟩
      simp [houtcome, connect]
    | false =>
      by_cases hf : f = 0
      · refine ⟨0, ?_⟩
        simp [houtcome, connect, hf]
      · obtain ⟨n, hn⟩ := ih
          { m with ib := some { connected := false }, connected := false }
          (i + 1) (backoff * 2)
        refine ⟨n + 1, ?_⟩
        simp only [houtcome, connect, Bool.false_eq_true, if_false, hf]
        rw [hn, List.range_succ_eq_map, List.map_cons, List.map_map]
        simp only [pow_zero, mul_one]
        congr 1
        have hfun : (fun k => backoff * 2 * 2 ^ k) =
            ((fun k => backoff * 2 ^ k) ∘ Nat.succ) := by
          funext k
          simp only [Function.comp_apply, pow_succ]
          ring
        rw [hfun]

/-- If every connect attempt fails, the retry loop with positive fuel
raises the `ConnectionError` summarizing the configured attempt count. -/
theorem connectWithRetryAux_all_fail (outcomes : Nat → Bool)
    (hall : ∀ i, outcomes i = false) :
    ∀ (fuel : Nat) (m : IBKRConnectionManager) (i backoff : Nat), 1 ≤ fuel →
      (connectWithRetryAux outcomes fuel m i backoff).result =
        .error m.max_reconnect_attempts := by
  intro fuel
  induction fuel with
  | zero => intro m i backoff h; exact absurd h (by omega)
  | succ f ih =>
    intro m i backoff _
    rw [connectWithRetryAux_succ_eq]
    by_cases hf : f = 0
    · simp [hall i, connect, hf]
    · simp only [hall i, connect, Bool.false_eq_true, if_false, hf]
      exact ih _ (i + 1) _ (by omega)

/-- C5: `connect_with_retry` performs at most `max_reconnect_attempts`
connect attempts; its sleeps follow the doubling backoff schedule starting
at the configured base; when every attempt fails it raises a
`ConnectionError` summarizing the attempt count; and in the spec scenario
— three attempts allowed, two injected failures then a success — it sleeps
exactly twice with strictly increasing durations, performs exactly one
successful connect (three calls in total), and raises nothing. -/
theorem connect_with_retry_spec :
    (∀ (m : IBKRConnectionManager) (outcomes : Nat → Bool),
      (connect_with_retry m outcomes).connectCalls ≤
        m.max_reconnect_attempts) ∧
    (∀ (m : IBKRConnectionManager) (outcomes : Nat → Bool),
      ∃ n, (connect_with_retry m outcomes).sleeps =
        (List.range n).map (fun k => m.reconnect_backoff_seconds * 2 ^ k)) ∧
    (∀ (m : IBKRConnectionManager) (outcomes : Nat → Bool),
      1 ≤ m.max_reconnect_attempts → (∀ i, outcomes i = false) →
      (connect_with_retry m outcomes).result =
        .error m.max_reconnect_attempts) ∧
    (∀ (m : IBKRConnectionManager) (outcomes : Nat → Bool),
      m.max_reconnect_attempts = 3 → 0 < m.reconnect_backoff_seconds →
      outcomes 0 = false → outcomes 1 = false → outcomes 2 = true →
      (connect_with_retry m outcomes).sleeps =
        [m.reconnect_backoff_seconds, m.reconnect_backoff_seconds * 2] ∧
      m.reconnect_backoff_seconds < m.reconnect_backoff_seconds * 2 ∧
      (connect_with_retry m outcomes).successfulConnects = 1 ∧
      (connect_with_retry m outcomes).connectCalls = 3 ∧
      (connect_with_retry m outcomes).result = .ok ()) := by
  refine ⟨?_, ?_, ?_, ?_⟩
  · intro m outcomes
    exact connectWithRetryAux_calls_le outcomes _ m 0 _
  · intro m outcomes
    exact connectWithRetryAux_sleeps_geometric outcomes _ m 0 _
  · intro m outcomes h1 hall
    exact connectWithRetryAux_all_fail outcomes hall _ m 0 _ h1
  · intro m outcomes hmax hb h0 h1 h2
    have hshow : connect_with_retry m outcomes =
        connectWithRetryAux outcomes (Nat.succ (Nat.succ (Nat.succ 0))) m 0
          m.reconnect_backoff_seconds := by
      unfold connect_with_retry
      rw [hmax]
    rw [hshow]
    simp only [connectWithRetryAux, h0, h1, h2, connect]
    simp only [Bool.false_eq_true, if_false, if_true, Nat.succ_ne_zero]
    refine ⟨?_, ?_, ?_, ?_, ?_⟩ <;> first
      | rfl
      | omega
      | trivial

/-- C5 witness: the spec scenario on a concrete manager (three attempts,
base backoff 5) with two injected failures then a success. -/
theorem connect_with_retry_spec_witness :
    retryMgr.max_reconnect_attempts = 3 ∧
    (connect_with_retry retryMgr retryOutcomes).sleeps = [5, 10] ∧
    (connect_with_retry retryMgr retryOutcomes).successfulConnects = 1 ∧
    (connect_with_retry retryMgr retryOutcomes).connectCalls = 3 ∧
    (connect_with_retry retryMgr retryOutcomes).result = .ok () :=
  ⟨rfl,
   (connect_with_retry_spec.2.2.2 retryMgr retryOutcomes rfl (by decide)
      rfl rfl rfl).1,
   (connect_with_retry_spec.2.2.2 retryMgr retryOutcomes rfl (by decide)
      rfl rfl rfl).2.2.1,
   (connect_with_retry_spec.2.2.2 retryMgr retryOutcomes rfl (by decide)
      rfl rfl rfl).2.2.2.1,
   (connect_with_retry_spec.2.2.2 retryMgr retryOutcomes rfl (by decide)
      rfl rfl rfl).2.2.2.2⟩

end AlphecExec
